import Mathlib

/-!
Verification of the exploration-tracker screen (`app/(tabs)/explore.tsx`).

The file embeds the core logic of the two variants of the screen:

* the AsyncStorage variant (lines 21-194 of the source): fix callback,
  persistence `useEffect`, `reset`;
* the SQLite variant (lines 326-550): fix callback with a gated insert,
  `reset`, the Simulate Walk dev control and the Sync Web reload.

Numbers are modelled as real numbers (the source computes with JavaScript
floating point; the spec states the exact haversine formula, so the exact
real-valued formula is the reference semantics).

A modelling note on the fix callback: in the source, the callback passed to
`Location.watchPositionAsync` closes over the React state variable
`explored` from the render in which `startTracking` ran.  React never
re-registers that callback, so every subsequent GPS fix is compared against
that captured array (the functional update `setExplored((prev) => ...)`
does append to the live state, but the `isNew` test reads the stale
binding).  The embedding therefore threads two lists: `snapshot`, the list
captured by the closure when tracking started, and the live `explored`
state that the functional updates mutate.
-/

namespace Explore

/-- A latitude/longitude pair in degrees, as in `type Coordinate` of the
source. -/
structure Coordinate where
  latitude : ℝ
  longitude : ℝ

/-- JavaScript `Math.atan2 y x` for real arguments. -/
noncomputable def atan2 (y x : ℝ) : ℝ :=
  if 0 < x then Real.arctan (y / x)
  else if x < 0 then
    if 0 ≤ y then Real.arctan (y / x) + Real.pi
    else Real.arctan (y / x) - Real.pi
  else if 0 < y then Real.pi / 2
  else if y < 0 then -(Real.pi / 2)
  else 0

/-- Degree-to-radian conversion, `toRad` in `getDistance`
(source line 82): `(deg * Math.PI) / 180`. -/
noncomputable def toRad (deg : ℝ) : ℝ :=
  deg * Real.pi / 180

/-- The intermediate value `a_` of `getDistance` (source lines 88-90):
`sin(dLat/2)*sin(dLat/2) + cos(lat1)*cos(lat2)*sin(dLon/2)*sin(dLon/2)`. -/
noncomputable def haverA (a b : Coordinate) : ℝ :=
  Real.sin (toRad (b.latitude - a.latitude) / 2) *
      Real.sin (toRad (b.latitude - a.latitude) / 2) +
    Real.cos (toRad a.latitude) * Real.cos (toRad b.latitude) *
      Real.sin (toRad (b.longitude - a.longitude) / 2) *
      Real.sin (toRad (b.longitude - a.longitude) / 2)

/-- `getDistance` from the source (lines 80-93 and, identically, 433-446):
`R * c` with `R = 6371e3` and `c = 2 * atan2(sqrt(a_), sqrt(1 - a_))`. -/
noncomputable def getDistance (a b : Coordinate) : ℝ :=
  6371000 * (2 * atan2 (Real.sqrt (haverA a b)) (Real.sqrt (1 - haverA a b)))

/-- The great-circle distance exactly as the spec words it (spec section 4.2):
`d = 2*R*atan2(sqrt(h), sqrt(1-h))` with
`h = sin^2(dLat/2) + cos(lat1)*cos(lat2)*sin^2(dLon/2)`, angles converted
from degrees to radians and `R = 6371000` meters.  Written independently of
`getDistance` so that the two can be compared. -/
noncomputable def haversineSpec (c1 c2 : Coordinate) : ℝ :=
  2 * 6371000 *
    atan2
      (Real.sqrt (Real.sin (toRad (c2.latitude - c1.latitude) / 2) ^ 2 +
        Real.cos (toRad c1.latitude) * Real.cos (toRad c2.latitude) *
          Real.sin (toRad (c2.longitude - c1.longitude) / 2) ^ 2))
      (Real.sqrt (1 - (Real.sin (toRad (c2.latitude - c1.latitude) / 2) ^ 2 +
        Real.cos (toRad c1.latitude) * Real.cos (toRad c2.latitude) *
          Real.sin (toRad (c2.longitude - c1.longitude) / 2) ^ 2)))

lemma haverA_eq_sq (a b : Coordinate) :
    haverA a b =
      Real.sin (toRad (b.latitude - a.latitude) / 2) ^ 2 +
        Real.cos (toRad a.latitude) * Real.cos (toRad b.latitude) *
          Real.sin (toRad (b.longitude - a.longitude) / 2) ^ 2 := by
  unfold haverA
  ring

end Explore

namespace Explore

/-- The condition `explored.some((pt) => getDistance(pt, current) < 30)` of
the fix callback (source lines 58 and 387), applied to the list the callback
actually reads: the closure snapshot. -/
def nearSome (snapshot : List Coordinate) (c : Coordinate) : Prop :=
  ∃ pt ∈ snapshot, getDistance pt c < 30

/-- State of the AsyncStorage variant: the `location` and `explored` React
states plus the value stored under the `"explored-areas"` AsyncStorage key
(`none` when the key is absent). -/
structure AsyncState where
  location : Option Coordinate
  explored : List Coordinate
  storage : Option (List Coordinate)

open Classical in
/-- The fix callback of the AsyncStorage variant (source lines 53-60):
`setLocation(current)`, then `isNew = !explored.some(...)` against the
closure `snapshot`, and `setExplored((prev) => [...prev, current])` when
`isNew`.  Persistence is not touched here; it runs afterwards in the
`useEffect` on `explored`, modelled by `persistEffect`. -/
noncomputable def onFix (snapshot : List Coordinate) (st : AsyncState)
    (c : Coordinate) : AsyncState :=
  if ¬ nearSome snapshot c then
    { st with location := some c, explored := st.explored ++ [c] }
  else
    { st with location := some c }

/-- The persistence `useEffect` of the AsyncStorage variant (source lines
36-38): `AsyncStorage.setItem("explored-areas", JSON.stringify(explored))`,
fired after `explored` changes.  `setOk` tells whether the write committed;
the effect neither checks nor reacts to failure. -/
def persistEffect (setOk : Bool) (st : AsyncState) : AsyncState :=
  if setOk then { st with storage := some st.explored } else st

/-- `reset` of the AsyncStorage variant (source lines 75-78):
`setExplored([])` unconditionally, then `AsyncStorage.removeItem` with no
await and no error handling.  `removeOk` tells whether the removal
committed; the in-memory clear does not depend on it. -/
def resetAsync (removeOk : Bool) (st : AsyncState) : AsyncState :=
  { st with
      explored := []
      storage := if removeOk then none else st.storage }

/-- State of the SQLite variant: `location` and `explored` React states plus
the rows of the `explored_points` table, kept in insertion (`id`) order.
Only latitude/longitude are modelled: the auto-assigned `id` and the
`timestamp` column are never read back by the screen (its select statements
project latitude and longitude only). -/
structure SqlState where
  location : Option Coordinate
  explored : List Coordinate
  db : List Coordinate

open Classical in
/-- The fix callback of the SQLite variant (source lines 381-398): same
`isNew` test against the closure `snapshot`; when `isNew`, the row is
inserted and `setExplored` runs only after `db.runAsync` resolves - the
`catch` block skips the in-memory append when the insert fails
(`insertOk = false`). -/
noncomputable def onFixSql (snapshot : List Coordinate) (insertOk : Bool)
    (st : SqlState) (c : Coordinate) : SqlState :=
  if ¬ nearSome snapshot c then
    if insertOk then
      { st with
          location := some c
          explored := st.explored ++ [c]
          db := st.db ++ [c] }
    else
      { st with location := some c }
  else
    { st with location := some c }

/-- A sequence of fixes delivered to the SQLite-variant callback, every
insert succeeding.  The `snapshot` stays fixed for the whole run, exactly as
the closure over `explored` does for the lifetime of the subscription. -/
noncomputable def runFixesSqlOk (snapshot : List Coordinate) (st : SqlState)
    (fixes : List Coordinate) : SqlState :=
  fixes.foldl (onFixSql snapshot true) st

/-- What one press of the Clear button produces. -/
structure ResetOutcome where
  state : SqlState
  invokedDeleteAll : Bool
  errorLogged : Bool

/-- `reset` of the SQLite variant, Clear branch of the confirmation alert
(source lines 414-431): `DELETE FROM explored_points` first and
`setExplored([])` only after it resolves; the `catch` block leaves the state
untouched and merely logs.  The delete statement is always attempted. -/
def resetSql (deleteOk : Bool) (st : SqlState) : ResetOutcome :=
  if deleteOk then
    ⟨{ st with explored := [], db := [] }, true, false⟩
  else
    ⟨st, true, true⟩

/-- The Sync Web button (source lines 527-542): `setExplored([])`, then a
select-all whose result replaces the in-memory list; on a read error the
list stays cleared. -/
def reloadSql (readOk : Bool) (st : SqlState) : SqlState :=
  if readOk then { st with explored := st.db } else { st with explored := [] }

open Classical in
/-- JavaScript `location?.latitude || 22.3149`: the default is taken when
the optional is absent and also when the value is `0`, since `0` is falsy. -/
noncomputable def jsOr (x : Option ℝ) (dflt : ℝ) : ℝ :=
  match x with
  | none => dflt
  | some v => if v = 0 then dflt else v

/-- The five simulated points of the Simulate Walk button (source lines
495-503): `base + i * 0.0002` in both coordinates, `i = 0..4`. -/
noncomputable def simPoints (baseLat baseLon : ℝ) : List Coordinate :=
  (List.range 5).map fun (i : ℕ) =>
    ⟨baseLat + (i : ℝ) * 0.0002, baseLon + (i : ℝ) * 0.0002⟩

/-- The Simulate Walk dev button (source lines 490-522): base is the current
location with a KGP fallback, the five points are inserted one by one inside
a single `try`, and `setExplored(prev => [...prev, ...newPoints])` runs only
after all five inserts resolve.  `failAt = some k` makes the `k`-th insert
fail: the rows already inserted stay, the in-memory append is skipped. -/
noncomputable def simulateWalk (failAt : Option Nat) (st : SqlState) :
    SqlState :=
  let baseLat := jsOr (st.location.map Coordinate.latitude) 22.3149
  let baseLon := jsOr (st.location.map Coordinate.longitude) 87.3105
  let newPoints := simPoints baseLat baseLon
  match failAt with
  | none =>
      { st with
          explored := st.explored ++ newPoints
          db := st.db ++ newPoints }
  | some k => { st with db := st.db ++ newPoints.take k }

lemma haverA_self (c : Coordinate) : haverA c c = 0 := by
  unfold haverA
  simp [toRad]

lemma getDistance_self (c : Coordinate) : getDistance c c = 0 := by
  unfold getDistance
  rw [haverA_self]
  simp [atan2]

/-- For two points on the same meridian the haversine distance collapses to
arc length along the meridian: `R` times the latitude difference in
radians. -/
lemma getDistance_same_longitude (a b : Coordinate)
    (hlon : b.longitude = a.longitude)
    (h0 : 0 < toRad (b.latitude - a.latitude) / 2)
    (hlt : toRad (b.latitude - a.latitude) / 2 < Real.pi / 2) :
    getDistance a b = 6371000 * toRad (b.latitude - a.latitude) := by
  have hπ := Real.pi_pos
  have hA : haverA a b =
      Real.sin (toRad (b.latitude - a.latitude) / 2) *
        Real.sin (toRad (b.latitude - a.latitude) / 2) := by
    unfold haverA
    rw [hlon, sub_self]
    simp [toRad]
  have hsin : 0 < Real.sin (toRad (b.latitude - a.latitude) / 2) :=
    Real.sin_pos_of_pos_of_lt_pi h0 (by linarith)
  have hcos : 0 < Real.cos (toRad (b.latitude - a.latitude) / 2) :=
    Real.cos_pos_of_mem_Ioo ⟨by linarith, hlt⟩
  have h2 : (1 : ℝ) - haverA a b =
      Real.cos (toRad (b.latitude - a.latitude) / 2) *
        Real.cos (toRad (b.latitude - a.latitude) / 2) := by
    rw [hA]
    nlinarith [Real.sin_sq_add_cos_sq (toRad (b.latitude - a.latitude) / 2)]
  have harc : Real.arctan
      (Real.tan (toRad (b.latitude - a.latitude) / 2)) =
        toRad (b.latitude - a.latitude) / 2 :=
    Real.arctan_tan (by linarith) hlt
  unfold getDistance
  rw [h2, hA, Real.sqrt_mul_self hsin.le, Real.sqrt_mul_self hcos.le]
  unfold atan2
  rw [if_pos hcos, ← Real.tan_eq_sin_div_cos, harc]
  ring

lemma dist_lat_0001_lt_30 :
    getDistance ⟨22.3149, 87.3105⟩ ⟨22.3150, 87.3105⟩ < 30 := by
  have hπ := Real.pi_pos
  have hδ : (22.3150 : ℝ) - 22.3149 = 0.0001 := by norm_num
  have h := getDistance_same_longitude ⟨22.3149, 87.3105⟩ ⟨22.3150, 87.3105⟩
    rfl ?_ ?_
  · rw [h]
    unfold toRad
    rw [hδ]
    nlinarith [Real.pi_lt_d6]
  · unfold toRad
    rw [hδ]
    positivity
  · unfold toRad
    rw [hδ]
    nlinarith [Real.pi_pos]

/-- Claim C4: for every pair of Coordinates, `getDistance` equals the
great-circle haversine distance `2*R*atan2(sqrt h, sqrt (1-h))` with
`h = sin^2(dLat/2) + cos(lat1)*cos(lat2)*sin^2(dLon/2)`, angles converted
from degrees to radians, and Earth radius `R = 6371000` meters. -/
theorem getDistance_eq_haversineSpec (a b : Coordinate) :
    getDistance a b = haversineSpec a b := by
  unfold getDistance haversineSpec
  rw [haverA_eq_sq]
  ring

/-- Claim C1 fails on the code: tracking started on an empty set captures an
empty closure snapshot, so the fixes (22.3149, 87.3105) and
(22.3150, 87.3105) - about 11 meters apart - are both classified NEW, and
afterwards ExploredSet holds two distinct points at haversine distance
below 30 meters. -/
theorem stale_snapshot_allows_close_pair :
    ∃ p ∈ (runFixesSqlOk [] ⟨none, [], []⟩
        [⟨22.3149, 87.3105⟩, ⟨22.3150, 87.3105⟩]).explored,
      ∃ q ∈ (runFixesSqlOk [] ⟨none, [], []⟩
        [⟨22.3149, 87.3105⟩, ⟨22.3150, 87.3105⟩]).explored,
        p ≠ q ∧ getDistance p q < 30 := by
  have hrun : (runFixesSqlOk [] ⟨none, [], []⟩
      [⟨22.3149, 87.3105⟩, ⟨22.3150, 87.3105⟩]).explored
      = [⟨22.3149, 87.3105⟩, ⟨22.3150, 87.3105⟩] := by
    simp [runFixesSqlOk, onFixSql, nearSome]
  rw [hrun]
  refine ⟨⟨22.3149, 87.3105⟩, by simp, ⟨22.3150, 87.3105⟩, by simp, ?_, ?_⟩
  · simp only [ne_eq, Coordinate.mk.injEq, not_and]
    intro h
    norm_num at h
  · exact dist_lat_0001_lt_30

/-- Claim C2 fails on the code: feeding the identical fix (22.3149, 87.3105)
twice stores two points, not one, because the second deduplication test runs
against the closure snapshot captured at tracking start (empty here), not
against the updated ExploredSet. -/
theorem identical_fixes_stored_twice :
    (runFixesSqlOk [] ⟨none, [], []⟩
        [⟨22.3149, 87.3105⟩, ⟨22.3149, 87.3105⟩]).explored.length = 2 ∧
    (runFixesSqlOk [] ⟨none, [], []⟩
        [⟨22.3149, 87.3105⟩, ⟨22.3149, 87.3105⟩]).db.length = 2 := by
  constructor <;> simp [runFixesSqlOk, onFixSql, nearSome]

/-- Claim C3 as stated is false: with the live ExploredSet holding
(22.3149, 87.3105) (at distance 0 < 30 from the incoming identical fix), the
claim classifies the fix REVISITED and forbids the append, but the code
appends it, because its test reads the closure snapshot (empty) instead of
the current set. -/
theorem second_identical_fix_classified_new :
    (onFix [] (onFix [] ⟨none, [], none⟩ ⟨22.3149, 87.3105⟩)
        ⟨22.3149, 87.3105⟩).explored
      = [⟨22.3149, 87.3105⟩, ⟨22.3149, 87.3105⟩] ∧
    getDistance ⟨22.3149, 87.3105⟩ ⟨22.3149, 87.3105⟩ < 30 := by
  constructor
  · simp [onFix, nearSome]
  · rw [getDistance_self]
    norm_num

/-- Claim C3, amended: the fix callback classifies a fix against the
ExploredSet snapshot captured by the closure when tracking started, not
against the current ExploredSet: if every snapshot point is at haversine
distance at least 30 meters from the fix (in particular when the snapshot is
empty), the fix is appended to ExploredSet; if some snapshot point is closer
than 30 meters, it is not appended; the last-known Coordinate is updated to
the fix in both cases. -/
theorem onFix_snapshot_spec (snapshot : List Coordinate) (st : AsyncState)
    (c : Coordinate) :
    (onFix snapshot st c).location = some c ∧
    ((∀ pt ∈ snapshot, 30 ≤ getDistance pt c) →
      (onFix snapshot st c).explored = st.explored ++ [c]) ∧
    ((∃ pt ∈ snapshot, getDistance pt c < 30) →
      (onFix snapshot st c).explored = st.explored) := by
  by_cases h : nearSome snapshot c
  · rw [onFix, if_neg (not_not_intro h)]
    refine ⟨rfl, ?_, fun _ => rfl⟩
    intro hall
    obtain ⟨pt, hmem, hlt⟩ := h
    exact absurd (hall pt hmem) (by linarith)
  · rw [onFix, if_pos h]
    exact ⟨rfl, fun _ => rfl, fun hex => absurd hex h⟩

/-- Witness for the amended claim C3 at concrete inputs: an empty snapshot
makes the fix NEW and appends it; a snapshot holding the very same
coordinate (distance 0) suppresses the append. -/
theorem onFix_snapshot_spec_witness :
    (onFix [] ⟨none, [], none⟩ ⟨22.3149, 87.3105⟩).explored
        = [⟨22.3149, 87.3105⟩] ∧
    (onFix [⟨22.3149, 87.3105⟩] ⟨none, [⟨22.3149, 87.3105⟩], none⟩
        ⟨22.3149, 87.3105⟩).explored = [⟨22.3149, 87.3105⟩] := by
  constructor
  · have h := (onFix_snapshot_spec [] ⟨none, [], none⟩
      ⟨22.3149, 87.3105⟩).2.1 (by simp)
    simpa using h
  · have h := (onFix_snapshot_spec [⟨22.3149, 87.3105⟩]
      ⟨none, [⟨22.3149, 87.3105⟩], none⟩ ⟨22.3149, 87.3105⟩).2.2
      ⟨⟨22.3149, 87.3105⟩, by simp, by rw [getDistance_self]; norm_num⟩
    simpa using h

/-- Claim C5 fails on the AsyncStorage variant: `reset` clears the
in-memory set before the persistence removal resolves and regardless of its
outcome, so a failed delete-all still loses the pre-operation value. -/
theorem resetAsync_clears_despite_failure :
    (resetAsync false
        ⟨none, [⟨22.3149, 87.3105⟩], some [⟨22.3149, 87.3105⟩]⟩).explored = []
      ∧ ([⟨22.3149, 87.3105⟩] : List Coordinate) ≠ [] := by
  exact ⟨rfl, by simp⟩

/-- Claim C5, amended: in the SQLite variant reset is all-or-nothing as
claimed (a successful delete-all empties both stores, a failed one leaves
the whole state unchanged); in the AsyncStorage variant the in-memory set is
cleared unconditionally, whether or not the removal commits. -/
theorem reset_atomicity_by_variant (st : SqlState) (ast : AsyncState)
    (removeOk : Bool) :
    (resetSql true st).state.explored = [] ∧
    (resetSql true st).state.db = [] ∧
    (resetSql false st).state = st ∧
    (resetAsync removeOk ast).explored = [] :=
  ⟨rfl, rfl, rfl, rfl⟩

/-- Claim C6 fails on the AsyncStorage variant: a NEW fix is appended to the
in-memory set by the callback itself, and persistence happens only
afterwards in the `useEffect`; when that write fails the in-memory set keeps
a point the store never confirmed. -/
theorem async_insert_not_gated :
    (persistEffect false
        (onFix [] ⟨none, [], some []⟩ ⟨22.3149, 87.3105⟩)).explored
      = [⟨22.3149, 87.3105⟩] ∧
    (persistEffect false
        (onFix [] ⟨none, [], some []⟩ ⟨22.3149, 87.3105⟩)).storage
      = some [] := by
  constructor <;> simp [persistEffect, onFix, nearSome]

/-- Claim C6, amended: in the SQLite variant the in-memory append is gated
on the insert confirming success - a failed insert leaves both the
in-memory list and the table unchanged, and a fix step preserves equality of
the two stores for either insert outcome.  In the AsyncStorage variant the
append is unconditional. -/
theorem sql_insert_gated (snapshot : List Coordinate) (insertOk : Bool)
    (st : SqlState) (c : Coordinate) (h : st.explored = st.db) :
    ((onFixSql snapshot false st c).explored = st.explored) ∧
    ((onFixSql snapshot false st c).db = st.db) ∧
    ((onFixSql snapshot insertOk st c).explored
      = (onFixSql snapshot insertOk st c).db) := by
  refine ⟨?_, ?_, ?_⟩
  · unfold onFixSql
    by_cases hn : nearSome snapshot c <;> simp [hn]
  · unfold onFixSql
    by_cases hn : nearSome snapshot c <;> simp [hn]
  · unfold onFixSql
    by_cases hn : nearSome snapshot c <;> cases insertOk <;> simp [hn, h]

/-- Witness for the amended claim C6: from the empty consistent state, the
failed-insert step keeps the list empty, and the successful-insert step
keeps the two stores equal. -/
theorem sql_insert_gated_witness :
    (onFixSql [] false ⟨none, [], []⟩ ⟨22.3149, 87.3105⟩).explored = [] ∧
    (onFixSql [] true ⟨none, [], []⟩ ⟨22.3149, 87.3105⟩).explored
      = (onFixSql [] true ⟨none, [], []⟩ ⟨22.3149, 87.3105⟩).db := by
  have h1 := sql_insert_gated [] false ⟨none, [], []⟩ ⟨22.3149, 87.3105⟩ rfl
  have h2 := sql_insert_gated [] true ⟨none, [], []⟩ ⟨22.3149, 87.3105⟩ rfl
  exact ⟨h1.1, h2.2.2⟩

/-- Claim C8: reset is idempotent.  With the delete-all committing, two
consecutive resets leave ExploredSet empty after each call and the second
call logs no error; a reset on an already-empty ExploredSet logs no error,
leaves the set empty and still issues the delete-all statement.  The
AsyncStorage reset is likewise idempotent on the in-memory set. -/
theorem resetSql_idempotent (st st2 : SqlState) (ast : AsyncState)
    (h : st2.explored = []) :
    (resetSql true st).state.explored = [] ∧
    (resetSql true (resetSql true st).state).state.explored = [] ∧
    (resetSql true (resetSql true st).state).errorLogged = false ∧
    (resetSql true (resetSql true st).state).invokedDeleteAll = true ∧
    (resetSql true st2).state.explored = [] ∧
    (resetSql true st2).errorLogged = false ∧
    (resetSql true st2).invokedDeleteAll = true ∧
    (resetAsync true (resetAsync true ast)).explored = [] :=
  ⟨rfl, rfl, rfl, rfl, rfl, rfl, rfl, rfl⟩

/-- Witness for claim C8 at a concrete non-empty state and the concrete
empty state. -/
theorem resetSql_idempotent_witness :
    (resetSql true
        (⟨none, [⟨22.3149, 87.3105⟩], [⟨22.3149, 87.3105⟩]⟩ : SqlState)
      ).state.explored = [] ∧
    (resetSql true (⟨none, [], []⟩ : SqlState)).state.explored = [] :=
  have h := resetSql_idempotent
    ⟨none, [⟨22.3149, 87.3105⟩], [⟨22.3149, 87.3105⟩]⟩ ⟨none, [], []⟩
    ⟨none, [], none⟩ rfl
  ⟨h.1, h.2.2.2.2.1⟩

lemma runFixesSqlOk_consistent (snapshot : List Coordinate)
    (fixes : List Coordinate) (st : SqlState) (h : st.explored = st.db) :
    (runFixesSqlOk snapshot st fixes).explored
      = (runFixesSqlOk snapshot st fixes).db := by
  induction fixes generalizing st with
  | nil => simpa [runFixesSqlOk] using h
  | cons c cs ih =>
      have hstep : (onFixSql snapshot true st c).explored
          = (onFixSql snapshot true st c).db := by
        unfold onFixSql
        by_cases hn : nearSome snapshot c <;> simp [hn, h]
      simpa [runFixesSqlOk] using ih (onFixSql snapshot true st c) hstep

/-- Claim C9: starting from a state where the in-memory list mirrors the
table (as after a successful initial load), any sequence of fixes whose
inserts all succeed keeps the two equal, so the Sync Web reload - which
replaces the in-memory list with the full table contents - returns exactly
the list held immediately before the reload. -/
theorem reload_roundtrip (snapshot fixes : List Coordinate) (st : SqlState)
    (h : st.explored = st.db) :
    (reloadSql true (runFixesSqlOk snapshot st fixes)).explored
      = (runFixesSqlOk snapshot st fixes).explored ∧
    (reloadSql true (runFixesSqlOk snapshot st fixes)).db
      = (runFixesSqlOk snapshot st fixes).db := by
  have hc := runFixesSqlOk_consistent snapshot fixes st h
  constructor
  · simp [reloadSql, ← hc]
  · simp [reloadSql]

/-- Witness for claim C9: one successful insert from the empty consistent
state, then a reload, returns the same single-point list. -/
theorem reload_roundtrip_witness :
    (reloadSql true
        (runFixesSqlOk [] ⟨none, [], []⟩ [⟨22.3149, 87.3105⟩])).explored
      = (runFixesSqlOk [] ⟨none, [], []⟩ [⟨22.3149, 87.3105⟩]).explored :=
  (reload_roundtrip [] [⟨22.3149, 87.3105⟩] ⟨none, [], []⟩ rfl).1

lemma simPoints_kgp : simPoints 22.3149 87.3105 =
    [⟨22.3149, 87.3105⟩, ⟨22.3151, 87.3107⟩, ⟨22.3153, 87.3109⟩,
      ⟨22.3155, 87.3111⟩, ⟨22.3157, 87.3113⟩] := by
  unfold simPoints
  rw [show List.range 5 = [0, 1, 2, 3, 4] from by decide]
  simp only [List.map_cons, List.map_nil]
  norm_num [Coordinate.mk.injEq]

lemma haverA_C7 : haverA ⟨22.3149, 87.3105⟩ ⟨22.3151, 87.3107⟩ =
    (1 + Real.cos (toRad 22.3149) * Real.cos (toRad 22.3151)) *
      (Real.sin (toRad 0.0002 / 2) * Real.sin (toRad 0.0002 / 2)) := by
  simp only [haverA]
  rw [show (22.3151 : ℝ) - 22.3149 = 0.0002 from by norm_num,
    show (87.3107 : ℝ) - 87.3105 = 0.0002 from by norm_num]
  ring

set_option maxHeartbeats 1000000 in
/-- Rational bounds for the sine of the half-angle of 0.0002 degrees. -/
lemma c7_sin_bounds :
    (0.00000174532 : ℝ) < Real.sin (toRad 0.0002 / 2) ∧
      Real.sin (toRad 0.0002 / 2) < 0.0000017453295 := by
  have hπl : (3.141592 : ℝ) < Real.pi := Real.pi_gt_d6
  have hπu : Real.pi < 3.141593 := Real.pi_lt_d6
  have hx_l : (0.0000017453288 : ℝ) < toRad 0.0002 / 2 := by
    unfold toRad
    linarith
  have hx_u : toRad 0.0002 / 2 < 0.0000017453295 := by
    unfold toRad
    linarith
  have hx0 : (0 : ℝ) < toRad 0.0002 / 2 := by linarith
  have hx1 : toRad 0.0002 / 2 ≤ 1 := by linarith
  have hx2 : (toRad 0.0002 / 2) ^ 2 < 0.0000000000030462 := by
    nlinarith [mul_pos (show (0 : ℝ) < 0.0000017453295 - toRad 0.0002 / 2
      from by linarith)
      (show (0 : ℝ) < 0.0000017453295 + toRad 0.0002 / 2 from by linarith)]
  have hcube : (toRad 0.0002 / 2) ^ 3 < 0.00000000000000002 := by
    nlinarith [mul_pos (show (0 : ℝ) <
        0.0000000000030462 - (toRad 0.0002 / 2) ^ 2 from by linarith)
      hx0, hx_u]
  have hsg := Real.sin_gt_sub_cube hx0 hx1
  exact ⟨by linarith, lt_trans (Real.sin_lt hx0) hx_u⟩

set_option maxHeartbeats 1000000 in
/-- Rational lower bound for the cosine of 22.3149 degrees in radians. -/
lemma c7_cos1 : (0.92295 : ℝ) < Real.cos (toRad 22.3149) := by
  have hπl : (3.141592 : ℝ) < Real.pi := Real.pi_gt_d6
  have hπu : Real.pi < 3.141593 := Real.pi_lt_d6
  have hl1_l : (0.3894683 : ℝ) < toRad 22.3149 := by
    unfold toRad
    linarith
  have hl1_u : toRad 22.3149 < 0.3894686 := by
    unfold toRad
    linarith
  have habs : |toRad 22.3149| ≤ 1 := by
    rw [abs_of_pos (by linarith)]
    linarith
  have hb := Real.cos_bound habs
  rw [abs_of_pos (by linarith : (0 : ℝ) < toRad 22.3149)] at hb
  have hb2 := (abs_le.mp hb).1
  have hsq1 : (toRad 22.3149) ^ 2 < 0.1516858 := by
    nlinarith [mul_pos (show (0 : ℝ) < 0.3894686 - toRad 22.3149
      from by linarith)
      (show (0 : ℝ) < 0.3894686 + toRad 22.3149 from by linarith)]
  have hq1 : (toRad 22.3149) ^ 4 < 0.0230086 := by
    nlinarith [mul_pos (show (0 : ℝ) < 0.1516858 - (toRad 22.3149) ^ 2
      from by linarith)
      (show (0 : ℝ) < 0.1516858 + (toRad 22.3149) ^ 2
        from by linarith [sq_nonneg (toRad 22.3149)])]
  linarith

set_option maxHeartbeats 1000000 in
/-- Rational lower bound for the cosine of 22.3151 degrees in radians. -/
lemma c7_cos2 : (0.92295 : ℝ) < Real.cos (toRad 22.3151) := by
  have hπl : (3.141592 : ℝ) < Real.pi := Real.pi_gt_d6
  have hπu : Real.pi < 3.141593 := Real.pi_lt_d6
  have hl2_l : (0.3894718 : ℝ) < toRad 22.3151 := by
    unfold toRad
    linarith
  have hl2_u : toRad 22.3151 < 0.3894721 := by
    unfold toRad
    linarith
  have habs : |toRad 22.3151| ≤ 1 := by
    rw [abs_of_pos (by linarith)]
    linarith
  have hb := Real.cos_bound habs
  rw [abs_of_pos (by linarith : (0 : ℝ) < toRad 22.3151)] at hb
  have hb2 := (abs_le.mp hb).1
  have hsq2 : (toRad 22.3151) ^ 2 < 0.1516886 := by
    nlinarith [mul_pos (show (0 : ℝ) < 0.3894721 - toRad 22.3151
      from by linarith)
      (show (0 : ℝ) < 0.3894721 + toRad 22.3151 from by linarith)]
  have hq2 : (toRad 22.3151) ^ 4 < 0.0230095 := by
    nlinarith [mul_pos (show (0 : ℝ) < 0.1516886 - (toRad 22.3151) ^ 2
      from by linarith)
      (show (0 : ℝ) < 0.1516886 + (toRad 22.3151) ^ 2
        from by linarith [sq_nonneg (toRad 22.3151)])]
  linarith

set_option maxHeartbeats 1000000 in
/-- The haversine intermediate value of the two scenario coordinates lies
strictly between the square of 0.0000023568 and one half. -/
lemma c7_haverA_bounds :
    (0.0000023568 : ℝ) ^ 2 < haverA ⟨22.3149, 87.3105⟩ ⟨22.3151, 87.3107⟩ ∧
      haverA ⟨22.3149, 87.3105⟩ ⟨22.3151, 87.3107⟩ < 0.5 := by
  have hc1 := c7_cos1
  have hc2 := c7_cos2
  have hs_l := c7_sin_bounds.1
  have hs_u := c7_sin_bounds.2
  have hs0 : (0 : ℝ) < Real.sin (toRad 0.0002 / 2) := by linarith
  have hcc : (0.8518 : ℝ) <
      Real.cos (toRad 22.3149) * Real.cos (toRad 22.3151) := by
    nlinarith [mul_pos (show (0 : ℝ) < Real.cos (toRad 22.3149) - 0.92295
      from by linarith)
      (show (0 : ℝ) < Real.cos (toRad 22.3151) - 0.92295 from by linarith)]
  have hcc_le : Real.cos (toRad 22.3149) * Real.cos (toRad 22.3151) ≤ 1 := by
    nlinarith [mul_nonneg (show (0 : ℝ) ≤ 1 - Real.cos (toRad 22.3149)
      from by linarith [Real.cos_le_one (toRad 22.3149)])
      (show (0 : ℝ) ≤ 1 - Real.cos (toRad 22.3151)
        from by linarith [Real.cos_le_one (toRad 22.3151)]),
      Real.cos_le_one (toRad 22.3149), Real.cos_le_one (toRad 22.3151)]
  have hs2 : (0.0000000000030461 : ℝ) <
      Real.sin (toRad 0.0002 / 2) * Real.sin (toRad 0.0002 / 2) := by
    nlinarith [mul_pos (show (0 : ℝ) < Real.sin (toRad 0.0002 / 2)
        - 0.00000174532 from by linarith)
      (show (0 : ℝ) < Real.sin (toRad 0.0002 / 2) + 0.00000174532
        from by linarith)]
  have hs2u : Real.sin (toRad 0.0002 / 2) * Real.sin (toRad 0.0002 / 2)
      < 0.0000000000031 := by
    nlinarith [mul_pos (show (0 : ℝ) < 0.0000017453295
        - Real.sin (toRad 0.0002 / 2) from by linarith)
      (show (0 : ℝ) < 0.0000017453295 + Real.sin (toRad 0.0002 / 2)
        from by linarith)]
  constructor
  · rw [haverA_C7]
    nlinarith [mul_pos (show (0 : ℝ) <
        Real.cos (toRad 22.3149) * Real.cos (toRad 22.3151) - 0.8518
        from by linarith)
      (show (0 : ℝ) < Real.sin (toRad 0.0002 / 2) *
          Real.sin (toRad 0.0002 / 2) - 0.0000000000030461
        from by linarith)]
  · rw [haverA_C7]
    nlinarith [mul_nonneg (show (0 : ℝ) ≤ 1 -
        Real.cos (toRad 22.3149) * Real.cos (toRad 22.3151)
        from by linarith)
      (show (0 : ℝ) ≤ Real.sin (toRad 0.0002 / 2) *
          Real.sin (toRad 0.0002 / 2) from by linarith)]

set_option maxHeartbeats 1000000 in
/-- Rational upper bound for the tangent of the threshold angle
30 / (2 * 6371000). -/
lemma c7_tan_v : Real.tan (15 / 6371000) < 0.0000023568 := by
  have hv0 : (0 : ℝ) < 15 / 6371000 := by norm_num
  have hv_u : (15 / 6371000 : ℝ) < 0.0000023545 := by norm_num
  have hcosv : (0.9999 : ℝ) < Real.cos (15 / 6371000) := by
    have habs : |(15 / 6371000 : ℝ)| ≤ 1 := by
      rw [abs_of_pos hv0]
      linarith
    have hb := Real.cos_bound habs
    rw [abs_of_pos hv0] at hb
    have hb2 := (abs_le.mp hb).1
    have h2 : ((15 : ℝ) / 6371000) ^ 2 < 0.00000000001 := by norm_num
    have h4 : ((15 : ℝ) / 6371000) ^ 4 < 0.00000000001 := by norm_num
    linarith
  rw [Real.tan_eq_sin_div_cos, div_lt_iff₀ (by linarith)]
  linarith [Real.sin_lt hv0]

set_option maxHeartbeats 1000000 in
/-- The two scenario coordinates of the spec are in fact more than 30 meters
apart: the exact haversine distance is about 30.3 m. -/
lemma thirty_lt_getDistance_C7 :
    30 < getDistance ⟨22.3149, 87.3105⟩ ⟨22.3151, 87.3107⟩ := by
  have hπl : (3.141592 : ℝ) < Real.pi := Real.pi_gt_d6
  have ha_l := c7_haverA_bounds.1
  have ha_u := c7_haverA_bounds.2
  have ha_0 : (0 : ℝ) < haverA ⟨22.3149, 87.3105⟩ ⟨22.3151, 87.3107⟩ :=
    lt_trans (by positivity) ha_l
  have h1a_pos : (0 : ℝ) <
      Real.sqrt (1 - haverA ⟨22.3149, 87.3105⟩ ⟨22.3151, 87.3107⟩) :=
    Real.sqrt_pos.mpr (by linarith)
  have h1a_le1 :
      Real.sqrt (1 - haverA ⟨22.3149, 87.3105⟩ ⟨22.3151, 87.3107⟩) ≤ 1 :=
    Real.sqrt_le_one.mpr (by linarith)
  have hsq_a : (0.0000023568 : ℝ) <
      Real.sqrt (haverA ⟨22.3149, 87.3105⟩ ⟨22.3151, 87.3107⟩) := by
    have h := Real.sqrt_lt_sqrt (by positivity) ha_l
    rwa [Real.sqrt_sq (by norm_num)] at h
  have ht : Real.sqrt (haverA ⟨22.3149, 87.3105⟩ ⟨22.3151, 87.3107⟩) ≤
      Real.sqrt (haverA ⟨22.3149, 87.3105⟩ ⟨22.3151, 87.3107⟩) /
        Real.sqrt (1 - haverA ⟨22.3149, 87.3105⟩ ⟨22.3151, 87.3107⟩) := by
    rw [le_div_iff₀ h1a_pos]
    nlinarith [Real.sqrt_nonneg (haverA ⟨22.3149, 87.3105⟩
      ⟨22.3151, 87.3107⟩), h1a_le1, h1a_pos]
  have hv0 : (0 : ℝ) < 15 / 6371000 := by norm_num
  have hv_half : (15 / 6371000 : ℝ) < Real.pi / 2 := by
    have : (15 / 6371000 : ℝ) < 0.0000023545 := by norm_num
    linarith
  have harctv : Real.arctan (Real.tan (15 / 6371000)) = 15 / 6371000 :=
    Real.arctan_tan (by linarith) hv_half
  have hchain : (15 / 6371000 : ℝ) <
      Real.arctan (Real.sqrt (haverA ⟨22.3149, 87.3105⟩ ⟨22.3151, 87.3107⟩) /
        Real.sqrt (1 - haverA ⟨22.3149, 87.3105⟩ ⟨22.3151, 87.3107⟩)) := by
    calc (15 / 6371000 : ℝ)
        = Real.arctan (Real.tan (15 / 6371000)) := harctv.symm
      _ < Real.arctan
            (Real.sqrt (haverA ⟨22.3149, 87.3105⟩ ⟨22.3151, 87.3107⟩)) :=
          Real.arctan_strictMono (lt_trans c7_tan_v hsq_a)
      _ ≤ _ := Real.arctan_strictMono.monotone ht
  unfold getDistance atan2
  rw [if_pos h1a_pos]
  linarith

/-- Claim C7 as stated is false on both counts: the haversine distance
between (22.3149, 87.3105) and (22.3151, 87.3107) is not below 30 meters,
and the run stores 2 points, not 1. -/
theorem second_fix_not_revisited :
    ¬ (getDistance ⟨22.3149, 87.3105⟩ ⟨22.3151, 87.3107⟩ < 30) ∧
    (runFixesSqlOk [] ⟨none, [], []⟩
        [⟨22.3149, 87.3105⟩, ⟨22.3151, 87.3107⟩]).explored.length = 2 := by
  constructor
  · exact not_lt.mpr thirty_lt_getDistance_C7.le
  · simp [runFixesSqlOk, onFixSql, nearSome]

/-- Claim C7, amended: for the fix sequence (22.3149, 87.3105) then
(22.3151, 87.3107), the haversine distance (R = 6371000 m) is strictly
greater than 30 meters - the spec's ~27 m estimate is wrong - so even the
intended deduplication against the current set would classify the second
fix NEW; the code, comparing against the empty tracking-start snapshot,
also classifies it NEW, leaving 2 stored points in ExploredSet and in the
table. -/
theorem second_fix_is_new :
    30 < getDistance ⟨22.3149, 87.3105⟩ ⟨22.3151, 87.3107⟩ ∧
    (runFixesSqlOk [] ⟨none, [], []⟩
        [⟨22.3149, 87.3105⟩, ⟨22.3151, 87.3107⟩]).explored.length = 2 ∧
    (runFixesSqlOk [] ⟨none, [], []⟩
        [⟨22.3149, 87.3105⟩, ⟨22.3151, 87.3107⟩]).db.length = 2 := by
  refine ⟨thirty_lt_getDistance_C7, ?_, ?_⟩ <;>
    simp [runFixesSqlOk, onFixSql, nearSome]

/-- Claim C10: the Simulate Walk dev control appends its five generated
points (0.0002 degrees apart in both coordinates) to the table and to the
in-memory ExploredSet with no 30-meter test; invoked while ExploredSet
already holds (22.3150, 87.3105) and no location fix exists (KGP fallback
base), the resulting ExploredSet holds two distinct points about 11 meters
apart. -/
theorem simulateWalk_bypasses_dedup :
    (simulateWalk none
        ⟨none, [⟨22.3150, 87.3105⟩], [⟨22.3150, 87.3105⟩]⟩).explored
      = [⟨22.3150, 87.3105⟩] ++ simPoints 22.3149 87.3105 ∧
    (simulateWalk none
        ⟨none, [⟨22.3150, 87.3105⟩], [⟨22.3150, 87.3105⟩]⟩).db
      = [⟨22.3150, 87.3105⟩] ++ simPoints 22.3149 87.3105 ∧
    ∃ p ∈ (simulateWalk none
        ⟨none, [⟨22.3150, 87.3105⟩], [⟨22.3150, 87.3105⟩]⟩).explored,
      ∃ q ∈ (simulateWalk none
        ⟨none, [⟨22.3150, 87.3105⟩], [⟨22.3150, 87.3105⟩]⟩).explored,
        p ≠ q ∧ getDistance p q < 30 := by
  have hrun : (simulateWalk none
      ⟨none, [⟨22.3150, 87.3105⟩], [⟨22.3150, 87.3105⟩]⟩).explored
      = [⟨22.3150, 87.3105⟩] ++ simPoints 22.3149 87.3105 := by
    simp [simulateWalk, jsOr]
  refine ⟨hrun, by simp [simulateWalk, jsOr], ?_⟩
  rw [hrun, simPoints_kgp]
  refine ⟨⟨22.3149, 87.3105⟩, by simp, ⟨22.3150, 87.3105⟩, by simp, ?_,
    dist_lat_0001_lt_30⟩
  simp only [ne_eq, Coordinate.mk.injEq, not_and]
  intro hlat
  norm_num at hlat

end Explore
